import Mathlib

/-!
Shallow embedding of the secret-keeper vault application
(src/script.js and src/unnamed/part_000) for checking the
specification claims about the storage bridge, the vault envelope,
and the vault model.
-/

namespace SecretKeeper

/-! ### JavaScript value helpers -/

/-- JavaScript string-or-null-or-undefined value, as carried in bridge
response fields such as `response.data`. -/
inductive JSStr where
  | undef
  | null
  | str (s : String)
  deriving DecidableEq, Repr

/-- JavaScript truthiness test `!x` for a `JSStr`: `undefined`, `null`
and the empty string are falsy. -/
def JSStr.falsy : JSStr → Bool
  | .undef => true
  | .null => true
  | .str s => s == ""

/-- JavaScript coercion `x || null` applied to a string field, as in
`response.data || null` (src/script.js:106): a falsy value collapses to
null (`none`), any other string passes through. -/
def jsOrNull : JSStr → Option String
  | .str s => if s == "" then none else some s
  | _ => none

/-- Helper for `jsTrim`: drop leading whitespace characters. -/
def dropLeadingWs : List Char → List Char
  | [] => []
  | c :: cs => if c.isWhitespace then dropLeadingWs cs else c :: cs

/-- JavaScript `String.prototype.trim`: strip whitespace from both ends.
Defined over the character list so that it evaluates in the kernel. -/
def jsTrim (s : String) : String :=
  ⟨(dropLeadingWs (dropLeadingWs s.data.reverse).reverse)⟩

/-- JavaScript truthiness of a string variable that may also be null
(`none`): `null` and the empty string are falsy.  This is the check
`!CURRENT_MASTER_KEY` / `!decryptionKey` in the source. -/
def strFalsy : Option String → Bool
  | none => true
  | some s => s == ""

/-! ### Vault envelope: symbolic cipher

Modelled from the spec: the actual cipher is the third-party CryptoJS
AES library loaded by the page, whose code is not part of this
repository.  Spec section 4.3 describes its interface: encryption under a
key produces a self-contained ciphertext blob; decryption under any other
key yields zero-length output (the conventional wrong-key signal), and a
malformed input makes the cipher throw, which `decryptData` catches. -/

/-- Modelled from the spec: a well-formed CryptoJS AES ciphertext is a
self-contained blob bound to the key that produced it, recoverable only
under that key (spec section 4.3). -/
structure Cipher (α : Type) where
  key : String
  plain : α
  deriving DecidableEq, Repr

/-- Modelled from the spec: the string handed to the cipher for
decryption is either a well-formed ciphertext or arbitrary malformed
text on which the cipher throws (spec section 4.3). -/
inductive CipherBlob (α : Type) where
  | wellFormed (c : Cipher α)
  | malformed (junk : String)
  deriving DecidableEq, Repr

/-- Plaintext types record when a value denotes the empty string, since
the cipher reports zero-length output (`bytes.sigBytes === 0`) for it and
`decryptData` then returns null. -/
class PlainEmpty (α : Type) where
  isEmpty : α → Bool

/-- JavaScript string viewed as either `JSON.stringify` of a value of
type `α` (a document) or some other text, on which `JSON.parse`-as-`α`
fails. -/
inductive JSONText (α : Type) where
  | doc (v : α)
  | text (s : String)
  deriving DecidableEq, Repr

instance : PlainEmpty (JSONText α) :=
  ⟨fun t => match t with | .doc _ => false | .text s => s == ""⟩

instance : PlainEmpty String := ⟨fun s => s == ""⟩

/-- Result of `JSON.parse` of a string expected to describe an `α`:
succeeds exactly on serialized documents. -/
def JSONText.parse : JSONText α → Option α
  | .doc v => some v
  | .text _ => none

/-- Translation of `encryptData` (src/script.js:165, part_000:167):
throws (`none`) when the master key is unset or empty (falsy); otherwise
produces a self-contained ciphertext under that key. -/
def encryptData (masterKey : Option String) (plaintext : α) : Option (Cipher α) :=
  match masterKey with
  | none => none
  | some k => if k == "" then none else some ⟨k, plaintext⟩

/-- Translation of `decryptData` (src/script.js:173, part_000:178):
returns null for a falsy key; catches the cipher exception on malformed
input (returning null); returns null when the cipher yields zero-length
output (wrong key, or empty plaintext); otherwise the recovered
plaintext.  The function is total: no exception escapes. -/
def decryptData [PlainEmpty α] (blob : CipherBlob α) (decryptionKey : Option String) :
    Option α :=
  if strFalsy decryptionKey then none
  else
    match blob with
    | .malformed _ => none
    | .wellFormed c =>
        if decryptionKey == some c.key then
          if PlainEmpty.isEmpty c.plain then none else some c.plain
        else none

/-- Helper for call sites that pass a possibly-null stored string to
`decryptData`: a missing blob decrypts to null (CryptoJS on a null input
ends in the catch / zero-length path). -/
def decryptDataOpt [PlainEmpty α] (blob : Option (CipherBlob α)) (k : Option String) :
    Option α :=
  match blob with
  | none => none
  | some b => decryptData b k

/-! ### Vault data model (src/script.js:17) -/

/-- Entry kinds handled by `storeNewEntry` (src/script.js:351). -/
inductive EntryType where
  | credentials
  | contact
  | securenote
  | link
  | file
  deriving DecidableEq, Repr

/-- Per-type payload fields collected into `entryData` by
`storeNewEntry` (src/script.js:351-387). -/
inductive EntryFields where
  | credentials (user pass notes : String)
  | contact (name email phone notes : String)
  | securenote (content : String)
  | link (address notes : String)
  | file (fileName fileMimeType fileData : String)
  deriving DecidableEq, Repr

/-- Decrypted entry payload: `{ type: ..., timestamp: ..., ...fields }`
(src/script.js:348). -/
structure EntryData where
  type : EntryType
  timestamp : Nat
  fields : EntryFields
  deriving DecidableEq, Repr

/-- Stored form of one entry: `{ type, encryptedData }`
(src/script.js:402). -/
structure StoredEntry where
  type : EntryType
  encryptedData : Cipher (JSONText EntryData)
  deriving DecidableEq, Repr

/-- In-memory vault object `{ userId, entries }` (src/script.js:17);
the entry map is kept in insertion order, as JavaScript object
properties are. -/
structure VaultData where
  userId : String
  entries : List (String × StoredEntry)
  deriving DecidableEq, Repr

/-- Property read `VAULT_DATA.entries[accessId]`. -/
def VaultData.lookup (v : VaultData) (accessId : String) : Option StoredEntry :=
  (v.entries.find? (fun p => p.1 == accessId)).map (·.2)

/-- Global mutable application state: `CURRENT_MASTER_KEY`, `VAULT_DATA`
and `CURRENT_USER_ID` (src/script.js:16-18).  `VAULT_DATA` is `none`
when the source holds the empty object (after logout / before login). -/
structure AppState where
  masterKey : Option String
  vaultData : Option VaultData
  currentUserId : String
  deriving DecidableEq, Repr

/-- Contents of the cross-origin storage holder at the keys the app
uses: `skr_userId`, `skr_vaultData`, `skr_avatar`
(src/script.js:10-12). -/
structure StorageState where
  userIdS : Option String
  vaultS : Option (CipherBlob (JSONText VaultData))
  avatarS : Option (CipherBlob String)
  deriving DecidableEq, Repr

/-! ### Bridge transport and request correlator (src/script.js:22-88) -/

/-- Configured trusted origin of the storage holder
(src/script.js:22). -/
def STORAGE_ORIGIN : String := "https://storage.mahdiyasser.site"

/-- Commands of the storage-holder protocol (spec section 6), as used by
`postToStorage` and the message listener. -/
inductive Command where
  | SAVE
  | RETRIEVE
  | DELETE
  | READY
  deriving DecidableEq, Repr

/-- Inbound message envelope from the holder:
`\x7b id, command, success, data?, message? \x7d` (spec section 6,
consumed at src/script.js:32-54). -/
structure BridgeResponse where
  command : Command
  id : Nat
  success : Bool
  data : JSStr
  message : Option String
  deriving DecidableEq, Repr

/-- State read and written by the message listener: the readiness flag
`isIframeReady` and the ids with a live resolver in `pendingCommands`
(src/script.js:24-26). -/
structure ListenerState where
  isIframeReady : Bool
  pending : List Nat
  deriving DecidableEq, Repr

/-- Settlement performed on a pending command's promise by the message
listener: resolution with the full response, resolution with
`\x7b data: null \x7d` for a not-found retrieval, or rejection with the
reported error message (null collapsing to a generic one). -/
inductive Settled where
  | resolvedResponse (id : Nat) (data : JSStr)
  | resolvedNotFound (id : Nat)
  | rejectedErr (id : Nat) (message : Option String)
  deriving DecidableEq, Repr

/-- Identifier of the pending command a settlement targets. -/
def Settled.sid : Settled → Nat
  | .resolvedResponse id _ => id
  | .resolvedNotFound id => id
  | .rejectedErr id _ => id

/-- Translation of the window message listener (src/script.js:29-55):
discard messages whose origin differs from the storage origin; a READY
message flips the readiness flag; otherwise the id is looked up among
pending commands — a match is resolved on success, resolved with a null
value when a RETRIEVE failed as not-found, rejected otherwise, and
removed; an unmatched id does nothing. -/
def handleStorageMessage (origin : String) (resp : BridgeResponse)
    (st : ListenerState) : ListenerState × Option Settled :=
  if origin ≠ STORAGE_ORIGIN then (st, none)
  else if resp.command = .READY then ({ st with isIframeReady := true }, none)
  else if resp.id ∈ st.pending then
    let eff :=
      if resp.success then Settled.resolvedResponse resp.id resp.data
      else if resp.command = .RETRIEVE ∧
          (resp.message = some "Key not found." ∨ resp.data = .null) then
        Settled.resolvedNotFound resp.id
      else Settled.rejectedErr resp.id resp.message
    ({ st with pending := st.pending.erase resp.id }, some eff)
  else (st, none)

/-- Globals consulted by one invocation of `postToStorage`
(src/script.js:23-25): whether the iframe reference has been
initialized, the readiness flag, and the command counter. -/
structure PostState where
  iframeInit : Bool
  isIframeReady : Bool
  commandCounter : Nat
  deriving DecidableEq, Repr

/-- Immediate outcome of one invocation of `postToStorage`: rejection,
a retry scheduled 500ms later, or an actual transmission under a fresh
id. -/
inductive SendStep where
  | rejected (msg : String)
  | retryScheduled
  | sent (id : Nat)
  deriving DecidableEq, Repr

/-- Translation of one invocation of `postToStorage`
(src/script.js:60-88): reject when the iframe is missing; when the
bridge is not ready, schedule a retry if `commandCounter < 10` and the
command is not READY, otherwise reject with the not-ready error; when
ready, allocate the current counter as id and transmit. -/
def postAttempt (s : PostState) (command : Command) : SendStep :=
  if !s.iframeInit then .rejected "Storage frame not initialized."
  else if !s.isIframeReady then
    if s.commandCounter < 10 && command != Command.READY then .retryScheduled
    else .rejected "Storage frame not ready after timeout."
  else .sent s.commandCounter

/-- Outcome of `postToStorage` after following up to `n` scheduled
retries under the premise of claim C2: no READY handshake ever arrives
and no other send completes, so none of the consulted globals change
between attempts and each scheduled retry re-invokes `postToStorage` on
the same state. -/
def postAfterRetries (s : PostState) (command : Command) : Nat → SendStep
  | 0 => postAttempt s command
  | n + 1 =>
      match postAttempt s command with
      | .retryScheduled => postAfterRetries s command n
      | o => o

/-- Proposition that a `postToStorage` call hangs: every finite number
of retry steps still ends in another scheduled retry, never in a
rejection or a transmission. -/
def postHangs (s : PostState) (command : Command) : Prop :=
  ∀ n, postAfterRetries s command n = .retryScheduled

/-! ### Storage facade (src/script.js:93-122) -/

/-- Result of a facade-level `get` as observable by its caller: either a
returned value (possibly absent) or a propagated error. -/
inductive FacadeGetResult where
  | value (d : Option String)
  | error (message : Option String)
  deriving DecidableEq, Repr

/-- Translation of `getAppStorage` (src/script.js:103-111) applied to
the settlement of its awaited `postToStorage` promise: a resolution
returns `response.data || null`; any rejection is caught and `null` is
returned. -/
def getAppStorage (settled : Settled) : FacadeGetResult :=
  match settled with
  | .resolvedResponse _ d => .value (jsOrNull d)
  | .resolvedNotFound _ => .value none
  | .rejectedErr _ _ => .value none

/-- End-to-end retrieval pipeline for a single in-flight RETRIEVE with
id `resp.id`: the listener settles the pending command from the holder
response and `getAppStorage` observes that settlement.  A response that
settles nothing leaves the awaiting caller pending, rendered here as an
absent value. -/
def facadeGet (resp : BridgeResponse) : FacadeGetResult :=
  match (handleStorageMessage STORAGE_ORIGIN resp ⟨true, [resp.id]⟩).2 with
  | some s => getAppStorage s
  | none => .value none

/-! ### Vault persistence and entry insertion (src/script.js:264-409) -/

/-- Serialization `JSON.stringify(VAULT_DATA)`: a proper vault object
serializes to its document; the empty object (post-logout state)
serializes to the literal text. -/
def serializeVault : Option VaultData → JSONText VaultData
  | some v => .doc v
  | none => .text "\x7b\x7d"

/-- Translation of `saveVaultData` (src/script.js:264-276, with
part_000:278-296 behaving identically on state): serialize and encrypt
the vault under the current master key and write it to storage; return
false when encryption throws (key unset) or the bridge write fails
(`bridgeOk` abstracts the awaited SAVE round-trip), true on success. -/
def saveVaultData (masterKey : Option String) (vault : Option VaultData)
    (stor : StorageState) (bridgeOk : Bool) : StorageState × Bool :=
  match encryptData masterKey (serializeVault vault) with
  | none => (stor, false)
  | some c =>
      if bridgeOk then ({ stor with vaultS := some (.wellFormed c) }, true)
      else (stor, false)

/-- Raw form-field inputs read by `storeNewEntry`
(src/script.js:351-387); `fileDataUrl` is the `dataset.dataurl`
attribute, absent when no file was loaded. -/
structure EntryForm where
  accessId : String
  user : String
  pass : String
  notes : String
  name : String
  email : String
  phone : String
  content : String
  address : String
  fileName : String
  fileMimeType : String
  fileDataUrl : Option String
  deriving DecidableEq, Repr

/-- Construction of the `entryData` object in `storeNewEntry`
(src/script.js:348-387): type tag, timestamp `Date.now()`, and the
per-type fields with the same trimming as the source; `none` when the
file type has no loaded data url ("File data is required."). -/
def buildEntryData (type : EntryType) (form : EntryForm) (now : Nat) :
    Option EntryData :=
  match type with
  | .credentials =>
      some ⟨.credentials, now,
        .credentials (jsTrim form.user) form.pass (jsTrim form.notes)⟩
  | .contact =>
      some ⟨.contact, now,
        .contact (jsTrim form.name) (jsTrim form.email) (jsTrim form.phone)
          (jsTrim form.notes)⟩
  | .securenote => some ⟨.securenote, now, .securenote (jsTrim form.content)⟩
  | .link => some ⟨.link, now, .link (jsTrim form.address) (jsTrim form.notes)⟩
  | .file =>
      match form.fileDataUrl with
      | none => none
      | some dataUrl => some ⟨.file, now, .file form.fileName form.fileMimeType dataUrl⟩

/-- Outcome reported by `storeNewEntry` to the user interface. -/
inductive StoreOutcome where
  | notLoggedIn
  | vaultUnset
  | missingInfo
  | duplicateId
  | encryptThrew
  | saveFailed
  | stored
  deriving DecidableEq, Repr

/-- Validation check of `storeNewEntry` (src/script.js:392): empty
trimmed access id, a secure note without content, or credentials missing
user or password. -/
def storeValidationFails (type : EntryType) (form : EntryForm) (accessId : String) :
    Bool :=
  accessId == "" ||
    (type == .securenote && jsTrim form.content == "") ||
    (type == .credentials && (jsTrim form.user == "" || form.pass == ""))

/-- Translation of `storeNewEntry` (src/script.js:343-409): abort when
not logged in, on validation failure, or on a duplicate access id;
otherwise encrypt the entry payload, insert it into the in-memory entry
map, and persist the whole vault with `saveVaultData`.  When the save
fails the source shows a popup and returns — the inserted entry is left
in the in-memory map.  `vaultUnset` renders the TypeError the source
would raise when `VAULT_DATA` is the empty object. -/
def storeNewEntry (st : AppState) (stor : StorageState) (type : EntryType)
    (form : EntryForm) (now : Nat) (bridgeOk : Bool) :
    AppState × StorageState × StoreOutcome :=
  if st.masterKey = none then (st, stor, .notLoggedIn)
  else
    match st.vaultData with
    | none => (st, stor, .vaultUnset)
    | some vault =>
        match buildEntryData type form now with
        | none => (st, stor, .missingInfo)
        | some entryData =>
            let accessId := jsTrim form.accessId
            if storeValidationFails type form accessId then (st, stor, .missingInfo)
            else if (vault.lookup accessId).isSome then (st, stor, .duplicateId)
            else
              match encryptData st.masterKey (JSONText.doc entryData) with
              | none => (st, stor, .encryptThrew)
              | some c =>
                  let vault' :=
                    { vault with entries := vault.entries ++ [(accessId, ⟨type, c⟩)] }
                  let st' := { st with vaultData := some vault' }
                  let (stor', ok) := saveVaultData st'.masterKey st'.vaultData stor bridgeOk
                  (st', stor', if ok then .stored else .saveFailed)

/-! ### Authentication (src/script.js:192-291) -/

/-- Outcome of an authentication attempt as reported to the user. -/
inductive AuthOutcome where
  | missingInfo
  | setupComplete
  | encryptThrew
  | idMismatch
  | accessDenied
  | dataCorrupted
  | unlocked
  deriving DecidableEq, Repr

/-- Translation of `handleInitialSetup` (src/script.js:212-228): store
the user identifier, build an empty vault, encrypt and store it, adopt
the identifier; storage writes are taken as succeeding (this variant has
no failure handling on them). -/
def handleInitialSetup (st : AppState) (stor : StorageState) (userIdInput : String) :
    AppState × StorageState × AuthOutcome :=
  let stor1 := { stor with userIdS := some userIdInput }
  let vault : VaultData := ⟨userIdInput, []⟩
  let st1 := { st with vaultData := some vault }
  match encryptData st.masterKey (JSONText.doc vault) with
  | none => (st1, stor1, .encryptThrew)
  | some c =>
      ({ st1 with currentUserId := userIdInput },
       { stor1 with vaultS := some (.wellFormed c) }, .setupComplete)

/-- Translation of `handleLoginAttempt` (src/script.js:231-258): compare
the stored identifier with the input, decrypt the stored vault under the
attempted master key, parse it; each failure branch shows a popup and
returns, leaving `CURRENT_MASTER_KEY` untouched. -/
def handleLoginAttempt (st : AppState) (stor : StorageState) (userIdInput : String) :
    AppState × StorageState × AuthOutcome :=
  if stor.userIdS ≠ some userIdInput then (st, stor, .idMismatch)
  else
    match decryptDataOpt stor.vaultS st.masterKey with
    | none => (st, stor, .accessDenied)
    | some plain =>
        match plain.parse with
        | none => (st, stor, .dataCorrupted)
        | some v =>
            ({ st with vaultData := some v, currentUserId := userIdInput },
             stor, .unlocked)

/-- Translation of `performAuthentication` (src/script.js:192-209):
validate the inputs, decide setup versus login from the stored
identifier, assign `CURRENT_MASTER_KEY := masterKeyInput`, and dispatch.
The master key is assigned before either branch runs. -/
def performAuthentication (st : AppState) (stor : StorageState)
    (userIdInput masterKeyInput : String) : AppState × StorageState × AuthOutcome :=
  let uid := jsTrim userIdInput
  if uid == "" || masterKeyInput == "" then (st, stor, .missingInfo)
  else
    let isSetup := strFalsy stor.userIdS
    let st1 := { st with masterKey := some masterKeyInput }
    if isSetup then handleInitialSetup st1 stor uid
    else handleLoginAttempt st1 stor uid

/-- Translation of `processVaultLogout` (src/script.js:285-291): clear
the master key and reset the in-memory vault to the empty object. -/
def processVaultLogout (st : AppState) : AppState :=
  { st with masterKey := none, vaultData := none }

/-! ### Re-keying (src/unnamed/part_000:686-879) -/

/-- Translation of `saveUserAvatar(true)` (src/unnamed/part_000:816-879),
the re-keying branch: fetch the stored encrypted avatar; when present,
decrypt it with `CURRENT_MASTER_KEY` — which at this point already holds
the new key — and on a failed decrypt return success without touching
the stored blob (the source's own comments flag this); on the
(unreachable for a genuinely changed key) successful decrypt, re-encrypt
and store.  The dead local `oldKey` of line 829, assigned but never
read, is elided. -/
def saveUserAvatarRekey (masterKey : Option String) (stor : StorageState)
    (bridgeOk : Bool) : StorageState × Bool :=
  if strFalsy masterKey then (stor, false)
  else
    match stor.avatarS with
    | none => (stor, true)
    | some existing =>
        match decryptData existing masterKey with
        | none => (stor, true)
        | some plainAvatar =>
            match encryptData masterKey plainAvatar with
            | none => (stor, false)
            | some c =>
                if bridgeOk then ({ stor with avatarS := some (.wellFormed c) }, true)
                else (stor, false)

/-- Outcome of `updateMasterSecurityKey` as reported to the user. -/
inductive RekeyOutcome where
  | missingInfo
  | noChange
  | success
  | storageFailure
  deriving DecidableEq, Repr

/-- Translation of `updateMasterSecurityKey`
(src/unnamed/part_000:686-724), confirmed path: reject an empty or
unchanged new key; otherwise overwrite `CURRENT_MASTER_KEY` with the new
key, re-save the vault, and on success re-save the avatar via
`saveUserAvatar(true)` — whose result is not checked — before reporting
success; on a failed vault save revert the key and re-save under the old
one. -/
def updateMasterSecurityKey (st : AppState) (stor : StorageState) (newKey : String)
    (vaultSaveOk avatarSaveOk revertSaveOk : Bool) :
    AppState × StorageState × RekeyOutcome :=
  if newKey == "" then (st, stor, .missingInfo)
  else if some newKey = st.masterKey then (st, stor, .noChange)
  else
    let oldKey := st.masterKey
    let st1 := { st with masterKey := some newKey }
    let (stor1, ok) := saveVaultData st1.masterKey st1.vaultData stor vaultSaveOk
    if ok then
      let (stor2, _avatarOk) := saveUserAvatarRekey st1.masterKey stor1 avatarSaveOk
      (st1, stor2, .success)
    else
      let st2 := { st1 with masterKey := oldKey }
      let (stor3, _) := saveVaultData st2.masterKey st2.vaultData stor1 revertSaveOk
      (st2, stor3, .storageFailure)

/-! ### Sample data for concrete witnesses -/

/-- Sample decrypted entry payload used in concrete instantiations. -/
def sampleEntry : EntryData := ⟨.securenote, 0, .securenote "hello"⟩

/-- Concrete response for the C7 witness: a successful SAVE reply. -/
def c7Resp : BridgeResponse := ⟨.SAVE, 5, true, .null, none⟩

/-- Concrete listener state for the C7 witness with two pending ids. -/
def c7St : ListenerState := ⟨true, [5, 7]⟩

/-- Concrete logged-in pre-state for C1: master key "k", empty vault. -/
def c1St0 : AppState := ⟨some "k", some ⟨"alice", []⟩, "alice"⟩

/-- Concrete storage for C1 whose persisted vault is the encrypted empty
vault — the last successfully persisted state. -/
def c1Stor0 : StorageState :=
  ⟨some "alice", some (.wellFormed ⟨"k", .doc ⟨"alice", []⟩⟩), none⟩

/-- Concrete secure-note form input for C1. -/
def c1Form : EntryForm :=
  ⟨"email1", "", "", "", "", "", "", "hi", "", "", "", none⟩

/-- Concrete storage for C3 holding an account for "alice". -/
def c3Stor : StorageState :=
  ⟨some "alice", some (.wellFormed ⟨"k1", .doc ⟨"alice", []⟩⟩), none⟩

/-- Concrete vault body for the C4 re-keying run. -/
def c4Vault : VaultData := ⟨"alice", []⟩

/-- Concrete decrypted avatar payload for the C4 re-keying run. -/
def c4AvatarPlain : String := "data-url-avatar-bytes"

/-- Concrete logged-in state for C4 with master key "k1". -/
def c4St : AppState := ⟨some "k1", some c4Vault, "alice"⟩

/-- Concrete storage for C4: vault body and avatar blob both encrypted
under the current key "k1". -/
def c4Stor : StorageState :=
  ⟨some "alice", some (.wellFormed ⟨"k1", .doc c4Vault⟩),
   some (.wellFormed ⟨"k1", c4AvatarPlain⟩)⟩

/-- Concrete non-not-found retrieval failure response for C8. -/
def c8FailResp : BridgeResponse :=
  ⟨.RETRIEVE, 3, false, .undef, some "Storage quota exceeded."⟩

/-! ### Claim theorems -/

/-- C5: for every representable entry payload and every key under which
`encryptData` succeeds, `decryptData` of the produced ciphertext under
the same key returns the original serialized payload. -/
theorem C5_encrypt_decrypt_roundtrip (k : String) (e : EntryData)
    (c : Cipher (JSONText EntryData))
    (h : encryptData (some k) (JSONText.doc e) = some c) :
    decryptData (.wellFormed c) (some k) = some (JSONText.doc e) := by
  by_cases hk : k = ""
  · subst hk; simp [encryptData] at h
  · rw [encryptData] at h
    simp only [beq_iff_eq, if_neg hk, Option.some.injEq] at h
    subst h
    simp [decryptData, strFalsy, hk, PlainEmpty.isEmpty]

/-- Witness for C5 at a concrete key and payload. -/
theorem C5_encrypt_decrypt_roundtrip_witness :
    decryptData (.wellFormed ⟨"s3cr3t", JSONText.doc sampleEntry⟩) (some "s3cr3t")
      = some (JSONText.doc sampleEntry) :=
  C5_encrypt_decrypt_roundtrip "s3cr3t" sampleEntry _ (by decide)

/-- C6: an inbound message whose origin differs from the configured
storage-holder origin is discarded without changing the listener state —
readiness flag and pending table untouched — and settles nothing. -/
theorem C6_foreign_origin_discarded (origin : String) (resp : BridgeResponse)
    (st : ListenerState) (h : origin ≠ STORAGE_ORIGIN) :
    handleStorageMessage origin resp st = (st, none) := by
  simp [handleStorageMessage, h]

/-- Witness for C6 at a concrete foreign origin. -/
theorem C6_foreign_origin_discarded_witness :
    handleStorageMessage "https://evil.example" ⟨.READY, 0, true, .null, none⟩
      ⟨false, [1, 2]⟩ = (⟨false, [1, 2]⟩, none) :=
  C6_foreign_origin_discarded "https://evil.example" ⟨.READY, 0, true, .null, none⟩
    ⟨false, [1, 2]⟩ (by decide)

/-- C9: `decryptData` is total (the catch returns null instead of
rethrowing) and returns an absent result for an absent key, an empty
key, a malformed ciphertext, and any key other than the one the
ciphertext was produced under — in particular it never returns the
original payload under a wrong key. -/
theorem C9_decrypt_wrong_key_absent (c : Cipher (JSONText EntryData)) (j : String)
    (b : CipherBlob (JSONText EntryData)) (k : String) (hk : k ≠ c.key) :
    decryptData b none = none
    ∧ decryptData b (some "") = none
    ∧ decryptData (CipherBlob.malformed j : CipherBlob (JSONText EntryData))
        (some k) = none
    ∧ decryptData (.wellFormed c) (some k) = none := by
  refine ⟨by simp [decryptData, strFalsy], by simp [decryptData, strFalsy], ?_, ?_⟩
  · by_cases hke : k = "" <;> simp [decryptData, strFalsy, hke]
  · by_cases hke : k = "" <;> simp [decryptData, strFalsy, hke, hk]

/-- Witness for C9: a wrong key yields an absent result on a concrete
ciphertext. -/
theorem C9_decrypt_wrong_key_absent_witness :
    decryptData (.wellFormed ⟨"right", JSONText.doc sampleEntry⟩) (some "wrong")
      = none :=
  (C9_decrypt_wrong_key_absent ⟨"right", JSONText.doc sampleEntry⟩ "junk"
    (.malformed "junk") "wrong" (by decide)).2.2.2

/-- C10: a key whose stored value is the empty string is reported by the
retrieval facade exactly like a key the holder does not have: both pass
through `response.data || null` to an absent value, indistinguishable at
the public interface. -/
theorem C10_empty_value_indistinguishable (id1 id2 : Nat) :
    facadeGet ⟨.RETRIEVE, id1, true, .str "", none⟩ = .value none
    ∧ facadeGet ⟨.RETRIEVE, id2, false, .null, some "Key not found."⟩
        = .value none := by
  constructor <;>
    simp [facadeGet, handleStorageMessage, getAppStorage, jsOrNull, STORAGE_ORIGIN]

/-- Helper: the settlement built by the listener for a matched pending
id always targets that id, whichever branch produced it. -/
theorem settleEffect_sid (resp : BridgeResponse) :
    (if resp.success then Settled.resolvedResponse resp.id resp.data
     else if resp.command = .RETRIEVE ∧
         (resp.message = some "Key not found." ∨ resp.data = .null) then
       Settled.resolvedNotFound resp.id
     else Settled.rejectedErr resp.id resp.message).sid = resp.id := by
  split
  · rfl
  · split <;> rfl

/-- C7: a response whose id matches a pending request removes that entry
and settles it — resolved or rejected — exactly once, in the same step
as the removal, so a duplicate delivery of the same response afterwards
is a no-op; a response whose id matches no pending request changes
nothing and settles nothing. -/
theorem C7_correlation_exactly_once (resp : BridgeResponse) (st : ListenerState)
    (hr : resp.command ≠ .READY) (hnd : st.pending.Nodup) :
    (resp.id ∈ st.pending →
        (handleStorageMessage STORAGE_ORIGIN resp st).1
            = { st with pending := st.pending.erase resp.id }
        ∧ (∃ eff, (handleStorageMessage STORAGE_ORIGIN resp st).2 = some eff
            ∧ eff.sid = resp.id)
        ∧ handleStorageMessage STORAGE_ORIGIN resp
              (handleStorageMessage STORAGE_ORIGIN resp st).1
            = ((handleStorageMessage STORAGE_ORIGIN resp st).1, none))
    ∧ (resp.id ∉ st.pending →
        handleStorageMessage STORAGE_ORIGIN resp st = (st, none)) := by
  have h0 : ¬ STORAGE_ORIGIN ≠ STORAGE_ORIGIN := fun h => h rfl
  constructor
  · intro hmem
    have h1 : handleStorageMessage STORAGE_ORIGIN resp st
        = ({ st with pending := st.pending.erase resp.id },
           some (if resp.success then Settled.resolvedResponse resp.id resp.data
             else if resp.command = .RETRIEVE ∧
                 (resp.message = some "Key not found." ∨ resp.data = .null) then
               Settled.resolvedNotFound resp.id
             else Settled.rejectedErr resp.id resp.message)) := by
      simp [handleStorageMessage, hr, hmem]
    have hnm : resp.id ∉ st.pending.erase resp.id := hnd.not_mem_erase
    refine ⟨by rw [h1], ⟨_, by rw [h1], settleEffect_sid resp⟩, ?_⟩
    rw [h1]
    simp [handleStorageMessage, hr, hnm]
  · intro hmem
    simp [handleStorageMessage, hr, hmem]

/-- Witness for C7: the matched branch at a concrete response and
pending table. -/
theorem C7_correlation_exactly_once_witness :
    (handleStorageMessage STORAGE_ORIGIN c7Resp c7St).1
        = { c7St with pending := c7St.pending.erase c7Resp.id }
    ∧ (∃ eff, (handleStorageMessage STORAGE_ORIGIN c7Resp c7St).2 = some eff
        ∧ eff.sid = c7Resp.id)
    ∧ handleStorageMessage STORAGE_ORIGIN c7Resp
          (handleStorageMessage STORAGE_ORIGIN c7Resp c7St).1
        = ((handleStorageMessage STORAGE_ORIGIN c7Resp c7St).1, none) :=
  (C7_correlation_exactly_once c7Resp c7St (by decide) (by decide)).1 (by decide)

/-- C1 counterexample: a valid insertion whose vault persist fails is
NOT rolled back — the failed call returns with the persisted state still
the empty vault while the in-memory entry map holds the new entry, so
the in-memory state differs from the last successfully persisted one. -/
theorem C1_counterexample :
    (storeNewEntry c1St0 c1Stor0 .securenote c1Form 0 false).2.2
        = .saveFailed
    ∧ (storeNewEntry c1St0 c1Stor0 .securenote c1Form 0 false).2.1 = c1Stor0
    ∧ decryptDataOpt c1Stor0.vaultS (some "k")
        = some (.doc ⟨"alice", []⟩)
    ∧ (storeNewEntry c1St0 c1Stor0 .securenote c1Form 0 false).1.vaultData
        ≠ some ⟨"alice", []⟩ := by
  decide

/-- C1 amended: when `storeNewEntry` passes validation, inserts the
entry and the persistence of the vault then fails, the insertion is NOT
rolled back: the call returns with the new entry still in the in-memory
entry map and the persisted storage unchanged. -/
theorem C1_no_rollback_on_save_failure (st : AppState) (stor : StorageState)
    (type : EntryType) (form : EntryForm) (now : Nat) (k : String)
    (hk : st.masterKey = some k) (hk2 : k ≠ "")
    (vault : VaultData) (hv : st.vaultData = some vault)
    (ed : EntryData) (hed : buildEntryData type form now = some ed)
    (hval : storeValidationFails type form (jsTrim form.accessId) = false)
    (hdup : vault.lookup (jsTrim form.accessId) = none) :
    storeNewEntry st stor type form now false
      = ({ st with vaultData := some { vault with entries :=
            vault.entries ++ [(jsTrim form.accessId, ⟨type, ⟨k, .doc ed⟩⟩)] } },
         stor, .saveFailed) := by
  have hk0 : st.masterKey ≠ none := by rw [hk]; exact Option.some_ne_none k
  rw [storeNewEntry]
  simp only [if_neg hk0, hv, hed, hval, Bool.false_eq_true, if_false, hdup,
    Option.isSome_none, Bool.false_eq_true, if_false, hk]
  rw [encryptData]
  simp only [beq_iff_eq, if_neg hk2]
  rw [saveVaultData, serializeVault, encryptData]
  simp only [beq_iff_eq, if_neg hk2, if_neg (Bool.false_ne_true)]
  simp

/-- Witness for C1 amended at the concrete pre-state. -/
theorem C1_no_rollback_on_save_failure_witness :
    storeNewEntry c1St0 c1Stor0 .securenote c1Form 0 false
      = ({ c1St0 with vaultData := some { userId := "alice", entries :=
            [(jsTrim c1Form.accessId,
              ⟨.securenote, ⟨"k", .doc ⟨.securenote, 0, .securenote "hi"⟩⟩⟩)] } },
         c1Stor0, .saveFailed) :=
  C1_no_rollback_on_save_failure c1St0 c1Stor0 .securenote c1Form 0 "k" rfl
    (by decide) ⟨"alice", []⟩ rfl ⟨.securenote, 0, .securenote "hi"⟩ (by decide)
    (by decide) (by decide)

/-- Helper: when the first attempt schedules a retry, every retry
re-runs the identical attempt, so every finite retry budget still ends
scheduling another retry. -/
theorem postHangs_of_retry (s : PostState) (cmd : Command)
    (h : postAttempt s cmd = .retryScheduled) : postHangs s cmd := by
  intro n
  induction n with
  | zero => exact h
  | succ n ih => rw [postAfterRetries, h]; exact ih

/-- Helper: a first attempt that does not schedule a retry is the final
outcome, whatever the retry budget. -/
theorem postAfterRetries_of_not_retry (s : PostState) (cmd : Command)
    (h : postAttempt s cmd ≠ .retryScheduled) (n : Nat) :
    postAfterRetries s cmd n = postAttempt s cmd := by
  cases n with
  | zero => rfl
  | succ n =>
      rw [postAfterRetries]
      cases hh : postAttempt s cmd with
      | retryScheduled => exact absurd hh h
      | rejected msg => rfl
      | sent id => rfl

/-- C2 counterexample: a command sent while the bridge is not ready,
with fewer than ten commands ever transmitted (here: none) and no READY
handshake ever arriving, is rescheduled forever — after any number of
retries `postToStorage` still only schedules another retry and never
rejects, an indefinite hang. -/
theorem C2_counterexample : postHangs ⟨true, false, 0⟩ .RETRIEVE :=
  postHangs_of_retry ⟨true, false, 0⟩ .RETRIEVE rfl

/-- C2 amended: with the bridge never ready, `postToStorage` rejects
with the not-ready error — immediately, with no retries — only when ten
or more commands were previously transmitted (or the command is READY);
when fewer than ten commands were ever transmitted, the retry recursion
is not bounded: the call retries forever and never rejects. -/
theorem C2_unready_send_behaviour (s : PostState) (cmd : Command)
    (hin : s.iframeInit = true) (hrd : s.isIframeReady = false) :
    ((10 ≤ s.commandCounter ∨ cmd = .READY) →
        ∀ n, postAfterRetries s cmd n
          = .rejected "Storage frame not ready after timeout.")
    ∧ (s.commandCounter < 10 → cmd ≠ .READY → postHangs s cmd) := by
  constructor
  · intro hcase n
    have ha : postAttempt s cmd
        = .rejected "Storage frame not ready after timeout." := by
      rw [postAttempt, hin, hrd]
      have hcond : (s.commandCounter < 10 && cmd != Command.READY) = false := by
        rcases hcase with hge | hready
        · simp [Nat.not_lt.mpr hge]
        · simp [hready]
      simp [hcond]
    rw [postAfterRetries_of_not_retry s cmd (by rw [ha]; exact fun h => nomatch h) n,
      ha]
  · intro hlt hcmd
    apply postHangs_of_retry
    rw [postAttempt, hin, hrd]
    have hcond : (s.commandCounter < 10 && cmd != Command.READY) = true := by
      simp [hlt, hcmd]
    simp [hcond]

/-- Witness for C2 amended: after ten transmitted commands an unready
send rejects at once. -/
theorem C2_unready_send_behaviour_witness :
    postAfterRetries ⟨true, false, 10⟩ .SAVE 3
      = .rejected "Storage frame not ready after timeout." :=
  (C2_unready_send_behaviour ⟨true, false, 10⟩ .SAVE rfl rfl).1
    (Or.inl (by decide)) 3

/-- Helper: no branch of `handleLoginAttempt` writes
`CURRENT_MASTER_KEY` — the result state holds whatever key the attempt
started with. -/
theorem handleLoginAttempt_masterKey (st : AppState) (stor : StorageState)
    (uid : String) :
    (handleLoginAttempt st stor uid).1.masterKey = st.masterKey := by
  rw [handleLoginAttempt]
  split
  · rfl
  · split
    · rfl
    · split <;> rfl

/-- C3 counterexample: an authentication attempt that fails with an
identifier mismatch completes with the attempted master key still held
in `CURRENT_MASTER_KEY` — it was assigned before validation and is not
cleared by the failure. -/
theorem C3_counterexample :
    (performAuthentication ⟨none, none, "USER"⟩ c3Stor "bob" "guess").2.2
        = .idMismatch
    ∧ (performAuthentication ⟨none, none, "USER"⟩ c3Stor "bob" "guess").1.masterKey
        = some "guess" := by
  decide

/-- C3 amended: every login attempt against an existing account —
whether it fails with an identifier mismatch, a wrong key, or corrupted
vault data — completes with `CURRENT_MASTER_KEY` holding the attempted
key; the key is NOT cleared on failed authentication.  Logout does clear
both the key and the in-memory vault. -/
theorem C3_failed_auth_key_retained (st : AppState) (stor : StorageState)
    (uid mk : String) (hu : jsTrim uid ≠ "") (hm : mk ≠ "")
    (hsetup : strFalsy stor.userIdS = false)
    (hfail : (performAuthentication st stor uid mk).2.2 ≠ .unlocked) :
    (performAuthentication st stor uid mk).1.masterKey = some mk
    ∧ (processVaultLogout st).masterKey = none
    ∧ (processVaultLogout st).vaultData = none := by
  refine ⟨?_, rfl, rfl⟩
  have hcond : (jsTrim uid == "" || mk == "") = false := by simp [hu, hm]
  rw [performAuthentication]
  simp only [hcond, Bool.false_eq_true, if_false, hsetup]
  exact handleLoginAttempt_masterKey { st with masterKey := some mk } stor (jsTrim uid)

/-- Witness for C3 amended at a concrete failing attempt. -/
theorem C3_failed_auth_key_retained_witness :
    (performAuthentication ⟨none, none, "USER"⟩ c3Stor "mallory" "guess2").1.masterKey
        = some "guess2"
    ∧ (processVaultLogout ⟨none, none, "USER"⟩).masterKey = none
    ∧ (processVaultLogout ⟨none, none, "USER"⟩).vaultData = none :=
  C3_failed_auth_key_retained ⟨none, none, "USER"⟩ c3Stor "mallory" "guess2"
    (by decide) (by decide) (by decide) (by decide)

/-- C4: re-keying from "k1" to "k2" with every storage write succeeding
commits the vault under the new key and reports success, yet leaves the
stored avatar blob encrypted under the old key only: `saveUserAvatar`
in its re-keying branch decrypts the blob with the already-replaced key,
fails, and returns success without re-encrypting, so after the commit
the avatar is unreadable under the new key and readable only under the
old one. -/
theorem C4_avatar_left_under_old_key :
    (updateMasterSecurityKey c4St c4Stor "k2" true true true).2.2
        = .success
    ∧ (updateMasterSecurityKey c4St c4Stor "k2" true true true).1.masterKey
        = some "k2"
    ∧ (updateMasterSecurityKey c4St c4Stor "k2" true true true).2.1.vaultS
        = some (.wellFormed ⟨"k2", .doc c4Vault⟩)
    ∧ (updateMasterSecurityKey c4St c4Stor "k2" true true true).2.1.avatarS
        = some (.wellFormed ⟨"k1", c4AvatarPlain⟩)
    ∧ decryptDataOpt
        (updateMasterSecurityKey c4St c4Stor "k2" true true true).2.1.avatarS
        (some "k2") = none
    ∧ decryptDataOpt
        (updateMasterSecurityKey c4St c4Stor "k2" true true true).2.1.avatarS
        (some "k1") = some c4AvatarPlain := by
  decide

/-- C8 counterexample: a retrieval failure that is not not-found is
rejected by the correlator, yet `getAppStorage` catches the rejection
and returns an absent value — the failure does not propagate to the
caller as an error. -/
theorem C8_counterexample :
    (handleStorageMessage STORAGE_ORIGIN c8FailResp ⟨true, [3]⟩).2
        = some (.rejectedErr 3 (some "Storage quota exceeded."))
    ∧ facadeGet c8FailResp = .value none := by
  decide

/-- C8 amended: a not-found retrieval yields a successful absent value,
never an error; every other retrieval failure is rejected by the
correlator but then swallowed by `getAppStorage`, which also returns an
absent value — no retrieval failure propagates to the caller as an
error. -/
theorem C8_get_failures_swallowed (resp : BridgeResponse)
    (hc : resp.command = .RETRIEVE) (hs : resp.success = false) :
    ((resp.message = some "Key not found." ∨ resp.data = .null) →
        (handleStorageMessage STORAGE_ORIGIN resp ⟨true, [resp.id]⟩).2
            = some (.resolvedNotFound resp.id)
        ∧ facadeGet resp = .value none)
    ∧ (¬(resp.message = some "Key not found." ∨ resp.data = .null) →
        (handleStorageMessage STORAGE_ORIGIN resp ⟨true, [resp.id]⟩).2
            = some (.rejectedErr resp.id resp.message)
        ∧ facadeGet resp = .value none) := by
  constructor
  · intro hnf
    have h1 : (handleStorageMessage STORAGE_ORIGIN resp ⟨true, [resp.id]⟩).2
        = some (.resolvedNotFound resp.id) := by
      simp [handleStorageMessage, hc, hs, hnf]
    exact ⟨h1, by rw [facadeGet, h1]; rfl⟩
  · intro hnf
    have h1 : (handleStorageMessage STORAGE_ORIGIN resp ⟨true, [resp.id]⟩).2
        = some (.rejectedErr resp.id resp.message) := by
      simp [handleStorageMessage, hc, hs, hnf]
    exact ⟨h1, by rw [facadeGet, h1]; rfl⟩

/-- Witness for C8 amended: a concrete not-found retrieval resolves to
an absent value. -/
theorem C8_get_failures_swallowed_witness :
    (handleStorageMessage STORAGE_ORIGIN
        ⟨.RETRIEVE, 9, false, .null, some "Key not found."⟩ ⟨true, [9]⟩).2
        = some (.resolvedNotFound 9)
    ∧ facadeGet ⟨.RETRIEVE, 9, false, .null, some "Key not found."⟩
        = .value none :=
  (C8_get_failures_swallowed ⟨.RETRIEVE, 9, false, .null, some "Key not found."⟩
    rfl rfl).1 (Or.inl rfl)

end SecretKeeper
